import Mathlib

/-!
Verification of the chat-to-purchase router agent (FastAPI shopping
assistant).  The Python sources `src/backend/api.py` and
`src/backend/agent/router.py` are shallowly embedded below: Python values
become the inductive `PyVal`, code that can raise returns `Except String`,
and the external collaborators (the OpenAI provider, `json.loads`, the
catalog search capability) are universally quantified oracle parameters.
-/

namespace Arize

/-- Model of a Python runtime value, as far as the router/API code
inspects values: `None`, booleans, integers, floats (modelled as
rationals — only conversion success and zero-ness matter here), strings,
lists, and string-keyed dicts. -/
inductive PyVal where
  | none  : PyVal
  | bool  : Bool → PyVal
  | int   : Int → PyVal
  | float : Rat → PyVal
  | str   : String → PyVal
  | list  : List PyVal → PyVal
  | dict  : List (String × PyVal) → PyVal
  deriving Repr

/-- Python truthiness (`bool(x)`) on the modelled values. -/
def pyTruthy : PyVal → Bool
  | .none => false
  | .bool b => b
  | .int n => n ≠ 0
  | .float q => q ≠ 0
  | .str s => s ≠ ""
  | .list l => !l.isEmpty
  | .dict d => !d.isEmpty

/-- `d.get(k, default)` on a dict's entry list. -/
def getD (d : List (String × PyVal)) (k : String) (dflt : PyVal) : PyVal :=
  match d.find? (fun p => p.1 = k) with
  | some p => p.2
  | Option.none => dflt

/-- `k in d` for a dict's entry list. -/
def hasKey (d : List (String × PyVal)) (k : String) : Bool :=
  d.any (fun p => p.1 = k)

/-- Digit-list to natural number accumulator, little helper for the
numeric-string parser. -/
def digitsVal (l : List Char) : Nat :=
  l.foldl (fun a c => a * 10 + (c.toNat - 48)) 0

/-- Parse a Python `float()`-acceptable decimal literal: optional
surrounding spaces, optional sign, digits with at most one decimal
point (at least one digit overall).  Exponent/inf/nan forms are not
produced by the code paths under study and are left unparsed. -/
def parseNumLit (s : String) : Option Rat :=
  let cs := s.toList.dropWhile (fun c => c = ' ')
  let cs := ((cs.reverse).dropWhile (fun c => c = ' ')).reverse
  let signAndRest : Bool × List Char :=
    match cs with
    | '-' :: r => (true, r)
    | '+' :: r => (false, r)
    | r => (false, r)
  let neg := signAndRest.1
  let body := signAndRest.2
  let intPart := body.takeWhile Char.isDigit
  let rest := body.dropWhile Char.isDigit
  match rest with
  | [] =>
      if intPart.isEmpty then Option.none
      else some (if neg then -(digitsVal intPart : Rat) else (digitsVal intPart : Rat))
  | '.' :: fr =>
      let fracPart := fr.takeWhile Char.isDigit
      if !(fr.dropWhile Char.isDigit).isEmpty then Option.none
      else if intPart.isEmpty && fracPart.isEmpty then Option.none
      else
        let mag : Rat := (digitsVal intPart : Rat) + (digitsVal fracPart : Rat) / ((10 : Rat) ^ fracPart.length)
        some (if neg then -mag else mag)
  | _ => Option.none

/-- Python's `float(x)` coercion: numbers and numeric strings convert,
everything else raises. -/
def pyFloat : PyVal → Except String Rat
  | .int n => .ok (n : Rat)
  | .float q => .ok q
  | .bool b => .ok (if b then 1 else 0)
  | .str s =>
      match parseNumLit s with
      | some q => .ok q
      | Option.none => .error ("could not convert string to float: " ++ s)
  | .none => .error "float() argument must be a string or a real number, not NoneType"
  | .list _ => .error "float() argument must be a string or a real number, not list"
  | .dict _ => .error "float() argument must be a string or a real number, not dict"

/-- `create_cart_action` (api.py): builds the cart-action dict from a
product dict; the `float(...)` coercions on `price` and `rating` can
raise. -/
def create_cart_action (product : List (String × PyVal)) : Except String PyVal := do
  let price ← pyFloat (getD product "price" (.int 0))
  let rating ← pyFloat (getD product "rating" (.int 0))
  .ok (.dict [("type", .str "add"),
    ("product", .dict [
      ("id", getD product "id" .none),
      ("name", getD product "name" (.str "")),
      ("description", getD product "description" (.str "")),
      ("price", .float price),
      ("rating", .float rating),
      ("category", getD product "category" (.str "")),
      ("image_path", getD product "image_path" (.str ""))])])

/-- The guard `isinstance(product, dict) and 'id' in product` from the
cart-action loop in the `chat` handler. -/
def wellFormedProduct : PyVal → Bool
  | .dict d => hasKey d "id"
  | _ => false

/-- Inner loop of the cart-action synthesis in `chat` (api.py lines
213-217): walks the (already truncated) product list, keeps dicts with
an `id`, and appends their cart actions; a raise inside
`create_cart_action` aborts the whole loop. -/
def synthGo : List PyVal → List PyVal → Except String (List PyVal)
  | [], acc => .ok acc.reverse
  | p :: rest, acc =>
      match p with
      | .dict d =>
          if hasKey d "id" then do
            let ca ← create_cart_action d
            synthGo rest (ca :: acc)
          else synthGo rest acc
      | _ => synthGo rest acc

/-- `for product in products_to_show[:4]: if isinstance(product, dict)
and 'id' in product: cart_actions.append(create_cart_action(product))`
(api.py, `chat`). -/
def synthesizeCartActions (products_to_show : List PyVal) : Except String (List PyVal) :=
  synthGo (products_to_show.take 4) []

/-- `create_cart_action` lifted to a `PyVal` known to be a dict; used to
state what the synthesis loop computes. -/
def createCartActionVal : PyVal → Except String PyVal
  | .dict d => create_cart_action d
  | _ => .error "not a dict"

/-! ## Conversation Driver (`src/backend/agent/router.py`) -/

/-- The system prompt sent on the first turn (router.py `SYSTEM_PROMPT`). -/
def SYSTEM_PROMPT : String :=
  "You are a shopping assistant for an online shoe store.\n\nCRITICAL: You MUST ALWAYS use the search_products_nl() tool when customers ask about products, prices, ratings, categories, brands, or any combination. Use the tool immediately - do NOT ask follow-up questions first.\n\nThe database contains products with: id, name, description, price, rating (0-5), category, and image_path.\n\nAfter receiving product results:\n- If customer asked for a specific product, show that product (or closest match)\n- If browsing, show top 4-5 products (prioritize by rating, then price)\n- Present in a numbered list: product name, price, rating, and brief description\n- Always end with: \"Which items would you like to add to your cart? Please let me know the product numbers or names.\"\n\nWhen customer wants to add a product to cart (e.g., \"I want to add X\", \"I'll take X\", \"add X to cart\"):\n1. Search for that product using the tool\n2. Confirm and say: \"I'll add [Product Name] to your cart\"\n\nExample browsing format:\n\"Here are some great options I found:\n\n1. [Product Name] - $[price] ⭐ [rating]/5\n   [Brief description]\n\n2. [Product Name] - $[price] ⭐ [rating]/5\n   [Brief description]\n\nWhich items would you like to add to your cart? Please let me know the product numbers or names.\"\n\nBe friendly, concise, and helpful."

/-- One tool-call directive as the driver sees it after shape
normalization: a `name`, a `call_id`, a fallback `id`, and a raw
`arguments` payload.  `Option.none` models an absent attribute/key. -/
structure ToolCallItem where
  name : Option String
  call_id : Option String
  idAttr : Option String
  arguments : PyVal
  deriving Repr

/-- One entry of a provider response's `output` list: a text item, a
tool-call item (`type` in `["tool_call", "function_call"]`), or
anything else. -/
inductive OutputItem where
  | textItem : String → OutputItem
  | callItem : ToolCallItem → OutputItem
  | otherItem : OutputItem
  deriving Repr

/-- A provider response: its id, an optional `output_text` attribute,
and the `output` item list. -/
structure Response where
  rid : String
  output_text : Option String
  output : List OutputItem
  deriving Repr

/-- A `function_call_output` dict fed back to the provider
(router.py lines 247-257). -/
structure ToolOutput where
  otype : String
  call_id : String
  output : String
  deriving Repr, DecidableEq

/-- Python `x or y` on optional strings (`None` and `""` are falsy). -/
def pyOrOpt (a b : Option String) : Option String :=
  match a with
  | some s => if s ≠ "" then some s else b
  | Option.none => b

/-- Truthiness of an optional string (`None` and `""` are falsy). -/
def truthyOptStr : Option String → Bool
  | some s => s ≠ ""
  | Option.none => false

/-- `_extract_output_text` scanning the `output` list for a truthy
text item. -/
def scanOutputText : List OutputItem → Option String
  | [] => Option.none
  | .textItem t :: rest => if t ≠ "" then some t else scanOutputText rest
  | _ :: rest => scanOutputText rest

/-- `_extract_output_text` (router.py): prefer a truthy `output_text`
attribute, else the first truthy text item of `output`. -/
def extract_output_text (response : Response) : Option String :=
  match response.output_text with
  | some s => if s ≠ "" then some s else scanOutputText response.output
  | Option.none => scanOutputText response.output

/-- `_extract_tool_calls` (router.py): collect the tool-call items of
the response's `output` list. -/
def extract_tool_calls (response : Response) : List ToolCallItem :=
  response.output.filterMap (fun item =>
    match item with
    | .callItem c => some c
    | _ => Option.none)

/-- `_parse_tool_arguments` (router.py): `None` becomes `{}`, a string
is JSON-decoded (decode failure becomes `{}`), anything else is
`args or {}`.  `jsonParse` stands for `json.loads`. -/
def parse_tool_arguments (jsonParse : String → Option PyVal) : PyVal → PyVal
  | .none => .dict []
  | .str s =>
      match jsonParse s with
      | some v => v
      | Option.none => .dict []
  | v => if pyTruthy v then v else .dict []

/-- `_extract_tool_call_info` (router.py): yields `(name, call_id,
arguments)` when both the name and the call id (with `id` as fallback)
are truthy, and `None` otherwise — a call without them is skipped. -/
def extract_tool_call_info (jsonParse : String → Option PyVal) (call : ToolCallItem) :
    Option (String × String × PyVal) :=
  match call.name, pyOrOpt call.call_id call.idAttr with
  | some n, some cid =>
      if n ≠ "" && cid ≠ "" then some (n, cid, parse_tool_arguments jsonParse call.arguments)
      else Option.none
  | _, _ => Option.none

/-- `arguments.get("query", "")`: raises unless the value is a dict. -/
def pyDictGetD (v : PyVal) (k : String) (dflt : PyVal) : Except String PyVal :=
  match v with
  | .dict d => .ok (getD d k dflt)
  | _ => .error "AttributeError: object has no attribute get"

/-- `run_tool` (router.py): execute `search_products_nl` via the
external catalog-search capability and pair the result text with the
products extracted from it; an unknown tool name raises
`Unknown tool: ...`.  `search` is the opaque capability and
`extractFn` stands for `_extract_products_from_result`, whose
regex/JSON internals are outside the properties studied here. -/
def run_tool (search : PyVal → Except String String)
    (extractFn : String → List PyVal)
    (tool_name : String) (arguments : PyVal) : Except String (String × List PyVal) :=
  if tool_name = "search_products_nl" then do
    let query ← pyDictGetD arguments "query" (.str "")
    let result ← search query
    .ok (result, extractFn result)
  else .error ("Unknown tool: " ++ tool_name)

/-- One tool-call round (router.py lines 235-257): walk the extracted
tool calls, skip the ones whose info cannot be extracted, execute the
rest, and turn each executed call into exactly one
`function_call_output` — an execution error becomes an
`"Error: ..."` output instead of aborting.  Returns the outputs and
the updated `found_products` accumulator. -/
def processRound (search : PyVal → Except String String)
    (jsonParse : String → Option PyVal) (extractFn : String → List PyVal) :
    List ToolCallItem → List PyVal → List ToolOutput × List PyVal
  | [], found => ([], found)
  | call :: rest, found =>
      match extract_tool_call_info jsonParse call with
      | Option.none => processRound search jsonParse extractFn rest found
      | some (tool_name, call_id, args) =>
          match run_tool search extractFn tool_name args with
          | .ok (result, products) =>
              let found2 := if !products.isEmpty then found ++ products else found
              let r := processRound search jsonParse extractFn rest found2
              (⟨"function_call_output", call_id, result⟩ :: r.1, r.2)
          | .error e =>
              let r := processRound search jsonParse extractFn rest found
              (⟨"function_call_output", call_id, "Error: " ++ e⟩ :: r.1, r.2)

/-- The generic fallback message of the driver loop. -/
def DRIVER_ERROR_MESSAGE : String := "I'm sorry, I encountered an issue processing your request."

/-- The apology used when the follow-up provider call is rejected. -/
def FOLLOWUP_APOLOGY : String :=
  "I apologize, but I encountered an issue while processing your request. Please try rephrasing your question."

/-- Python `a in b` substring test. -/
def substrB (a b : String) : Bool := decide (a.toList <:+: b.toList)

/-- Result of the driver loop, with ghost instrumentation: `iters`
counts executed loop-body iterations and `followups` records each
follow-up provider call (previous response id, outputs sent). -/
structure LoopResult where
  reply : String
  response_id : String
  found_products : List PyVal
  iters : Nat
  followups : List (String × List ToolOutput)
  deriving Repr

/-- The `while iteration < max_iterations` loop of `chat_with_agent`
(router.py lines 219-277), with the remaining budget as fuel:
return a truthy text output at once; with no text and no tool calls
return the generic fallback; otherwise run the round's tool calls and
send all outputs back in one follow-up call (`provider`), handling a
rejected follow-up with an apology; fuel 0 is line 274's
post-loop fallback. -/
def chatLoop (provider : String → List ToolOutput → Except String Response)
    (search : PyVal → Except String String)
    (jsonParse : String → Option PyVal) (extractFn : String → List PyVal) :
    Response → List PyVal → Nat → LoopResult
  | response, found, 0 =>
      { reply :=
          match extract_output_text response with
          | some s => if s ≠ "" then s else DRIVER_ERROR_MESSAGE ++ " Please try again."
          | Option.none => DRIVER_ERROR_MESSAGE ++ " Please try again.",
        response_id := response.rid, found_products := found, iters := 0, followups := [] }
  | response, found, fuel + 1 =>
      let t := extract_output_text response
      if truthyOptStr t then
        { reply := t.getD "", response_id := response.rid, found_products := found,
          iters := 1, followups := [] }
      else
        let tool_calls := extract_tool_calls response
        if tool_calls.isEmpty then
          { reply := DRIVER_ERROR_MESSAGE, response_id := response.rid, found_products := found,
            iters := 1, followups := [] }
        else
          let r := processRound search jsonParse extractFn tool_calls found
          match provider response.rid r.1 with
          | .ok response2 =>
              let lr := chatLoop provider search jsonParse extractFn response2 r.2 fuel
              { lr with iters := lr.iters + 1, followups := (response.rid, r.1) :: lr.followups }
          | .error e =>
              let error_msg :=
                if substrB "No tool output found" e || substrB "invalid_request_error" e then
                  FOLLOWUP_APOLOGY
                else DRIVER_ERROR_MESSAGE
              { reply := error_msg, response_id := response.rid, found_products := r.2,
                iters := 1, followups := [(response.rid, r.1)] }

/-- The request parameters built for the initial provider call
(router.py lines 198-205): `previous_response_id` is only attached
when truthy, and system instructions are prepended exactly when it is
not truthy. -/
structure ProviderParams where
  model : String
  input : String
  previous_response_id : Option String
  deriving Repr, DecidableEq

/-- Lines 198-205 of `chat_with_agent`: build the initial request. -/
def buildInitialParams (user_message : String) (previous_response_id : Option String) :
    ProviderParams :=
  let truthy := truthyOptStr previous_response_id
  { model := "gpt-4o",
    input := if !truthy then SYSTEM_PROMPT ++ "\n\nUser: " ++ user_message else user_message,
    previous_response_id := if truthy then previous_response_id else Option.none }

/-- `chat_with_agent` (router.py): build the initial request, make the
initial provider call (`initialCall`; a raise propagates to the
caller), then run the bounded loop with `max_iterations = 10`. -/
def chat_with_agent (initialCall : ProviderParams → Except String Response)
    (provider : String → List ToolOutput → Except String Response)
    (search : PyVal → Except String String)
    (jsonParse : String → Option PyVal) (extractFn : String → List PyVal)
    (user_message : String) (previous_response_id : Option String) :
    Except String LoopResult := do
  let response ← initialCall (buildInitialParams user_message previous_response_id)
  .ok (chatLoop provider search jsonParse extractFn response [] 10)

/-! ## Chat endpoint (`src/backend/api.py`) -/

/-- Python `s.upper()` on ASCII text, character by character. -/
def pyUpper (s : String) : String := ⟨s.data.map Char.toUpper⟩

/-- Python `s.lower()` on ASCII text, character by character. -/
def pyLower (s : String) : String := ⟨s.data.map Char.toLower⟩

/-- `is_yes = result and result.upper() == "YES"` from
`agent_references_products`: the Python value of the expression, where
the argument is `_call_llm`'s result (`None` models both a provider
error and a `None` reply).  `None and x` is `None`, `"" and x` is
`""`, otherwise the boolean comparison. -/
def isYesValue : Option String → PyVal
  | Option.none => .none
  | some s => if s = "" then .str "" else .bool (pyUpper s = "YES")

/-- `agent_references_products` (api.py): classify the reply with a
secondary LLM call; `classifierLLM` is that call (already wrapped by
`_call_llm`, so it returns `None` instead of raising) applied to the
reply. -/
def agent_references_products (classifierLLM : String → Option String)
    (agent_reply : String) : PyVal :=
  isYesValue (classifierLLM agent_reply)

/-- `product_name.lower()`: raises unless the value is a string. -/
def pyLowerE : PyVal → Except String String
  | .str s => .ok (pyLower s)
  | _ => .error "AttributeError: object has no attribute lower"

/-- Python `str(x)` on the modelled values, as used by the f-string
`f"search for \x7bproduct_name\x7d"`. -/
def pyToStr : PyVal → String
  | .str s => s
  | .int n => toString n
  | .bool true => "True"
  | .bool false => "False"
  | .none => "None"
  | .float q => toString q
  | .list _ => "(list)"
  | .dict _ => "(dict)"

/-- The inner scan of `extract_and_search_products`: first product of
the search results whose `name` contains the candidate name
(case-insensitive); `product.get` / `.lower()` on ill-shaped entries
raise. -/
def firstNameMatch (nameLower : String) : List PyVal → Except String (Option PyVal)
  | [] => .ok Option.none
  | p :: rest =>
      match p with
      | .dict d =>
          match getD d "name" (.str "") with
          | .str s =>
              if substrB nameLower (pyLower s) then .ok (some p)
              else firstNameMatch nameLower rest
          | _ => .error "AttributeError: object has no attribute lower"
      | _ => .error "AttributeError: object has no attribute get"

/-- The per-candidate loop of `extract_and_search_products`: one
synthetic `"search for <name>"` driver turn per candidate (a raise
propagates), skip empty results, keep the first name match. -/
def recoverLoop (searchTurn : String → Except String (String × String × List PyVal)) :
    List PyVal → List PyVal → Except String (List PyVal)
  | [], acc => .ok acc.reverse
  | name :: rest, acc => do
      let r ← searchTurn ("search for " ++ pyToStr name)
      let search_products := r.2.2
      if search_products.isEmpty then recoverLoop searchTurn rest acc
      else do
        let nameLower ← pyLowerE name
        match ← firstNameMatch nameLower search_products with
        | some p => recoverLoop searchTurn rest (p :: acc)
        | Option.none => recoverLoop searchTurn rest acc

/-- `extract_and_search_products` (api.py): ask the extraction LLM for
a JSON array of candidate names (`extractLLM` is `_call_llm` on the
extraction prompt for the reply; `jsonParse` is `json.loads`), default
to `[]` on a falsy/unparseable/non-list result, then search the first
4 candidates through `searchTurn` (a `chat_with_agent` call that can
raise). -/
def extract_and_search_products (extractLLM : String → Option String)
    (jsonParse : String → Option PyVal)
    (searchTurn : String → Except String (String × String × List PyVal))
    (agent_reply : String) : Except String (List PyVal) :=
  match extractLLM agent_reply with
  | Option.none => .ok []
  | some r =>
      if r = "" then .ok []
      else
        match jsonParse r with
        | Option.none => .ok []
        | some v =>
            match v with
            | .list names => recoverLoop searchTurn (names.take 4) []
            | _ => .ok []

/-- The process-wide `session_response_ids` map, as an association
list. -/
def SessionMap := List (String × String)
deriving Repr, DecidableEq

/-- `session_response_ids.get(session_id)`. -/
def sessionsGet (m : SessionMap) (k : String) : Option String :=
  match m.find? (fun p => p.1 = k) with
  | some p => some p.2
  | Option.none => Option.none

/-- `session_response_ids[session_id] = response_id`
(last-write-wins). -/
def sessionsPut (m : SessionMap) (k v : String) : SessionMap :=
  match m with
  | [] => [(k, v)]
  | p :: rest => if p.1 = k then (k, v) :: rest else p :: sessionsPut rest k v

/-- The apology returned by the handler's `except` branch. -/
def CHAT_APOLOGY : String := "I'm sorry, I encountered an error. Please try again."

/-- The JSON body of `ChatResponse` (api.py): `cartActions` is
`Optional` and defaults to `None`. -/
structure ChatResponse where
  message : String
  sessionId : String
  cartActions : Option (List PyVal)
  deriving Repr

/-- Outcome of one `chat` request: the response body, the session map
after the request, and a ghost flag recording whether the handler's
`except` branch produced the response. -/
structure ChatResult where
  response : ChatResponse
  sessions : SessionMap
  errored : Bool
  deriving Repr

/-- `session_id = request.sessionId or str(uuid.uuid4())` — `genId` is
the freshly generated id. -/
def requestSessionId (sessionIdReq : Option String) (genId : String) : String :=
  match sessionIdReq with
  | some s => if s ≠ "" then s else genId
  | Option.none => genId

/-- The `chat` handler (api.py lines 188-231).  `driver` is
`chat_with_agent` as a function of the user message and the previous
response id (its other effects are telemetry); `classifierLLM` and
`extractLLM` are the two secondary `_call_llm` oracles; `genId` is the
generated UUID.  The handler looks up the session's continuity token,
runs the driver (a raise lands in the `except` branch with the map
untouched), then writes the new token, classifies the reply, possibly
runs product recovery (a raise there lands in the `except` branch with
the map already updated), and synthesizes at most 4 cart actions. -/
def chat (sessions : SessionMap)
    (driver : String → Option String → Except String (String × String × List PyVal))
    (classifierLLM : String → Option String)
    (extractLLM : String → Option String)
    (jsonParse : String → Option PyVal)
    (genId : String)
    (message : String) (sessionIdReq : Option String) : ChatResult :=
  let session_id := requestSessionId sessionIdReq genId
  let previous_response_id := sessionsGet sessions session_id
  match driver message previous_response_id with
  | .error _ => ⟨⟨CHAT_APOLOGY, session_id, Option.none⟩, sessions, true⟩
  | .ok (reply, response_id, products) =>
      let sessions1 := sessionsPut sessions session_id response_id
      let agent_mentions_products := agent_references_products classifierLLM reply
      let productsToShow : Except String (List PyVal) :=
        if pyTruthy agent_mentions_products && products.isEmpty then
          extract_and_search_products extractLLM jsonParse
            (fun q => driver q previous_response_id) reply
        else .ok products
      match productsToShow with
      | .error _ => ⟨⟨CHAT_APOLOGY, session_id, Option.none⟩, sessions1, true⟩
      | .ok products_to_show =>
          let cartActionsE : Except String (List PyVal) :=
            if pyTruthy agent_mentions_products && !products_to_show.isEmpty then
              synthesizeCartActions products_to_show
            else .ok []
          match cartActionsE with
          | .error _ => ⟨⟨CHAT_APOLOGY, session_id, Option.none⟩, sessions1, true⟩
          | .ok cart_actions =>
              ⟨⟨reply, session_id, some cart_actions⟩, sessions1, false⟩

/-! ## Helper lemmas -/

/-- A key that is not in the dict yields the `get` default. -/
theorem getD_of_not_hasKey (d : List (String × PyVal)) (k : String) (dflt : PyVal)
    (h : hasKey d k = false) : getD d k dflt = dflt := by
  simp only [hasKey] at h
  have h' : d.find? (fun p => p.1 = k) = Option.none := by
    rw [List.find?_eq_none]
    intro x hx
    have hx' := (List.any_eq_false.mp h) x hx
    simpa using hx'
  simp only [getD, h']

/-- The cart-action dict produced by a successful `create_cart_action`
with coerced price `p` and rating `r`. -/
def cartActionDict (product : List (String × PyVal)) (p r : Rat) : PyVal :=
  .dict [("type", .str "add"),
    ("product", .dict [
      ("id", getD product "id" .none),
      ("name", getD product "name" (.str "")),
      ("description", getD product "description" (.str "")),
      ("price", .float p),
      ("rating", .float r),
      ("category", getD product "category" (.str "")),
      ("image_path", getD product "image_path" (.str ""))])]

/-- Fail-fast elementwise application of a fallible function, used to
state what the synthesis loop computes. -/
def mapExcept (f : PyVal → Except String PyVal) : List PyVal → Except String (List PyVal)
  | [] => .ok []
  | a :: rest => do
      let b ← f a
      let bs ← mapExcept f rest
      .ok (b :: bs)

/-- The synthesis loop is `mapExcept` of `create_cart_action` over the
well-formed entries, appended to the reversed accumulator. -/
theorem synthGo_eq (l : List PyVal) (acc : List PyVal) :
    synthGo l acc =
      match mapExcept createCartActionVal (l.filter wellFormedProduct) with
      | .ok outs => .ok (acc.reverse ++ outs)
      | .error e => .error e := by
  induction l generalizing acc with
  | nil => simp [synthGo, mapExcept]
  | cons p rest ih =>
      cases p with
      | dict d =>
          by_cases hk : hasKey d "id"
          · simp only [synthGo, hk, if_true, List.filter_cons, wellFormedProduct, mapExcept]
            cases hca : create_cart_action d with
            | error e =>
                show (Except.error e >>= fun ca => synthGo rest (ca :: acc)) = _
                simp only [createCartActionVal, hca]
                rfl
            | ok ca =>
                show (Except.ok ca >>= fun ca => synthGo rest (ca :: acc)) = _
                simp only [createCartActionVal, hca]
                show synthGo rest (ca :: acc) = _
                rw [ih]
                cases hm : mapExcept createCartActionVal (rest.filter wellFormedProduct) with
                | error e => rfl
                | ok outs =>
                    show Except.ok ((ca :: acc).reverse ++ outs)
                      = Except.ok (acc.reverse ++ ca :: outs)
                    rw [List.reverse_cons, List.append_assoc]
                    rfl
          · simp only [synthGo, hk, if_false, List.filter_cons, wellFormedProduct,
              Bool.false_eq_true, ih]
      | none => simpa [synthGo, List.filter_cons, wellFormedProduct] using ih acc
      | bool b => simpa [synthGo, List.filter_cons, wellFormedProduct] using ih acc
      | int n => simpa [synthGo, List.filter_cons, wellFormedProduct] using ih acc
      | float q => simpa [synthGo, List.filter_cons, wellFormedProduct] using ih acc
      | str s => simpa [synthGo, List.filter_cons, wellFormedProduct] using ih acc
      | list l2 => simpa [synthGo, List.filter_cons, wellFormedProduct] using ih acc

/-- A successful `mapExcept` preserves list length. -/
theorem mapExcept_ok_length (f : PyVal → Except String PyVal) (l : List PyVal)
    (l' : List PyVal) (h : mapExcept f l = .ok l') : l'.length = l.length := by
  induction l generalizing l' with
  | nil =>
      simp only [mapExcept] at h
      cases h
      rfl
  | cons a rest ih =>
      simp only [mapExcept] at h
      cases hca : f a with
      | error e =>
          rw [hca] at h
          exact Except.noConfusion h
      | ok b =>
          rw [hca] at h
          cases hm : mapExcept f rest with
          | error e =>
              rw [hm] at h
              exact Except.noConfusion h
          | ok bs =>
              rw [hm] at h
              cases h
              simp [ih bs hm]

/-! ## Claims -/

/-- C2, counterexample: `create_cart_action` is not tolerant of a
non-numeric `price` — on the record
`{"id": 1, "name": "Black Boots", "price": "n/a"}` the `float(...)`
coercion raises instead of producing a numeric output. -/
theorem create_cart_action_raises_on_nonnumeric_price :
    create_cart_action [("id", .int 1), ("name", .str "Black Boots"), ("price", .str "n/a")]
      = .error "could not convert string to float: n/a" := rfl

/-- C2, amended: when the `price` and `rating` fields are absent or
convertible by `float(...)`, `create_cart_action` succeeds, the output
price and rating are numeric, and a missing field defaults to zero;
a non-convertible field raises instead (see the counterexample). -/
theorem create_cart_action_numeric_when_convertible
    (product : List (String × PyVal)) (p r : Rat)
    (hp : pyFloat (getD product "price" (.int 0)) = .ok p)
    (hr : pyFloat (getD product "rating" (.int 0)) = .ok r) :
    create_cart_action product = .ok (cartActionDict product p r)
      ∧ (hasKey product "price" = false → p = 0)
      ∧ (hasKey product "rating" = false → r = 0) := by
  refine ⟨?_, ?_, ?_⟩
  · simp only [create_cart_action, cartActionDict, hp, hr]
    rfl
  · intro h
    rw [getD_of_not_hasKey product "price" (.int 0) h] at hp
    simp only [pyFloat, Int.cast_zero, Except.ok.injEq] at hp
    exact hp.symm
  · intro h
    rw [getD_of_not_hasKey product "rating" (.int 0) h] at hr
    simp only [pyFloat, Int.cast_zero, Except.ok.injEq] at hr
    exact hr.symm

/-- C2 witness: a record with no `price` and rating `9/2` yields a
cart action with numeric price 0 (the default) and rating 9/2. -/
theorem create_cart_action_numeric_when_convertible_witness :
    create_cart_action [("id", .int 7), ("rating", .float (9 / 2))]
        = .ok (cartActionDict [("id", .int 7), ("rating", .float (9 / 2))] 0 (9 / 2))
      ∧ (0 : Rat) = 0 := by
  have h := create_cart_action_numeric_when_convertible
    [("id", .int 7), ("rating", .float (9 / 2))] 0 (9 / 2) (by rfl) (by rfl)
  exact ⟨h.1, h.2.1 (by rfl)⟩

/-- C6: the Product Reference Classifier yields a falsy value for
every classifier-LLM result other than an affirmative `"YES"` token —
in particular for a provider error or unparseable output, where
`_call_llm` returns `None` (the embedding is a total function, so no
exception escapes). -/
theorem agent_references_products_defaults_false
    (classifierLLM : String → Option String) (agent_reply : String)
    (h : ∀ s, classifierLLM agent_reply = some s → pyUpper s ≠ "YES") :
    pyTruthy (agent_references_products classifierLLM agent_reply) = false := by
  unfold agent_references_products isYesValue
  cases hres : classifierLLM agent_reply with
  | none => rfl
  | some s =>
      by_cases hs : s = ""
      · simp [hs, pyTruthy]
      · simp only [hs, if_false, pyTruthy]
        simpa using h s hres

set_option maxRecDepth 4000 in
/-- C6 witness: a classifier LLM answering `"NO"` makes the
classifier falsy. -/
theorem agent_references_products_defaults_false_witness :
    pyTruthy (agent_references_products (fun _ => some "NO") "Hello there!") = false :=
  agent_references_products_defaults_false (fun _ => some "NO") "Hello there!"
    (by intro s hs; injection hs with h1; subst h1; decide)

/-- C8, counterexample: a call that passes the continuity token `""`
is treated as having none — system instructions are re-prepended and
no `previous_response_id` is attached, contradicting the claim for
that token. -/
theorem buildInitialParams_empty_token_treated_as_absent :
    (buildInitialParams "hi" (some "")).previous_response_id = Option.none
      ∧ (buildInitialParams "hi" (some "")).input = SYSTEM_PROMPT ++ "\n\nUser: " ++ "hi" :=
  ⟨rfl, rfl⟩

/-- C8, amended: with no continuity token the provider input is the
system instructions concatenated with the user message; with a
non-empty continuity token the input is the user message alone and the
token is attached; an empty-string token behaves exactly like an
absent one. -/
theorem buildInitialParams_input_shape :
    (∀ m : String,
        (buildInitialParams m Option.none).input = SYSTEM_PROMPT ++ "\n\nUser: " ++ m
          ∧ (buildInitialParams m Option.none).previous_response_id = Option.none)
      ∧ (∀ (m s : String), s ≠ "" →
          (buildInitialParams m (some s)).input = m
            ∧ (buildInitialParams m (some s)).previous_response_id = some s)
      ∧ (∀ m : String, buildInitialParams m (some "") = buildInitialParams m Option.none) := by
  refine ⟨fun m => ⟨rfl, rfl⟩, fun m s hs => ?_, fun m => rfl⟩
  have hd : truthyOptStr (some s) = true := by simp [truthyOptStr, hs]
  simp only [buildInitialParams, hd, Bool.not_true, Bool.false_eq_true, if_false]
  exact ⟨trivial, rfl⟩

/-- C8 witness: with token `"resp_1"` the input is the bare message
and the token rides along. -/
theorem buildInitialParams_input_shape_witness :
    (buildInitialParams "hello" (some "resp_1")).input = "hello"
      ∧ (buildInitialParams "hello" (some "resp_1")).previous_response_id = some "resp_1" :=
  buildInitialParams_input_shape.2.1 "hello" "resp_1" (by decide)

/-- C3: when the cart-action synthesis succeeds, it produced at most 4
cart actions, these are exactly the cart actions of the well-formed
(dict with an `id`) entries among the first 4 input records in input
order, and entries lacking an `id` are dropped; the processed entries
form a sublist of the input (order preservation). -/
theorem synthesizeCartActions_first4_wellformed (ps cas : List PyVal)
    (h : synthesizeCartActions ps = .ok cas) :
    cas.length ≤ 4
      ∧ mapExcept createCartActionVal ((ps.take 4).filter wellFormedProduct) = .ok cas
      ∧ ((ps.take 4).filter wellFormedProduct).Sublist ps := by
  rw [synthesizeCartActions, synthGo_eq] at h
  cases hm : mapExcept createCartActionVal ((ps.take 4).filter wellFormedProduct) with
  | error e =>
      rw [hm] at h
      exact Except.noConfusion h
  | ok outs =>
      rw [hm] at h
      simp only [List.reverse_nil, List.nil_append] at h
      cases h
      refine ⟨?_, rfl, ?_⟩
      · have hl := mapExcept_ok_length createCartActionVal _ _ hm
        calc cas.length = ((ps.take 4).filter wellFormedProduct).length := hl
          _ ≤ (ps.take 4).length := List.length_filter_le _ _
          _ ≤ 4 := List.length_take_le _ _
      · exact ((ps.take 4).filter_sublist).trans (List.take_sublist 4 ps)

/-- C3 witness: on a 5-record list whose second entry is not a dict,
whose third lacks an `id`, and whose fifth is beyond the cap, the
synthesizer keeps exactly the well-formed records among the first 4. -/
theorem synthesizeCartActions_first4_wellformed_witness :
    ([cartActionDict [("id", PyVal.int 1)] 0 0,
        cartActionDict [("id", PyVal.int 2)] 0 0] : List PyVal).length ≤ 4
      ∧ mapExcept createCartActionVal
          ((([PyVal.dict [("id", PyVal.int 1)], PyVal.str "junk",
              PyVal.dict [("name", PyVal.str "NoId")], PyVal.dict [("id", PyVal.int 2)],
              PyVal.dict [("id", PyVal.int 3)]].take 4).filter wellFormedProduct))
          = .ok [cartActionDict [("id", PyVal.int 1)] 0 0,
              cartActionDict [("id", PyVal.int 2)] 0 0]
      ∧ ((([PyVal.dict [("id", PyVal.int 1)], PyVal.str "junk",
            PyVal.dict [("name", PyVal.str "NoId")], PyVal.dict [("id", PyVal.int 2)],
            PyVal.dict [("id", PyVal.int 3)]].take 4).filter wellFormedProduct)).Sublist
          [PyVal.dict [("id", PyVal.int 1)], PyVal.str "junk",
            PyVal.dict [("name", PyVal.str "NoId")], PyVal.dict [("id", PyVal.int 2)],
            PyVal.dict [("id", PyVal.int 3)]] :=
  synthesizeCartActions_first4_wellformed
    [PyVal.dict [("id", PyVal.int 1)], PyVal.str "junk",
      PyVal.dict [("name", PyVal.str "NoId")], PyVal.dict [("id", PyVal.int 2)],
      PyVal.dict [("id", PyVal.int 3)]]
    [cartActionDict [("id", PyVal.int 1)] 0 0, cartActionDict [("id", PyVal.int 2)] 0 0]
    (by rfl)

/-- C4: when the classifier judges the reply as not referencing
products (a falsy classification value), the response's `cartActions`
is the empty list, whatever products the driver collected. -/
theorem chat_cartActions_empty_when_not_referencing
    (sessions : SessionMap)
    (driver : String → Option String → Except String (String × String × List PyVal))
    (classifierLLM extractLLM : String → Option String)
    (jsonParse : String → Option PyVal) (genId message : String)
    (sessionIdReq : Option String)
    (reply response_id : String) (products : List PyVal)
    (hdriver : driver message (sessionsGet sessions (requestSessionId sessionIdReq genId))
        = .ok (reply, response_id, products))
    (hcls : pyTruthy (agent_references_products classifierLLM reply) = false) :
    (chat sessions driver classifierLLM extractLLM jsonParse genId
        message sessionIdReq).response.cartActions = some [] := by
  simp [chat, hdriver, hcls]

set_option maxRecDepth 4000 in
/-- C4 witness: driver collects a product but the classifier answers
`"NO"`, so `cartActions` is the empty list. -/
theorem chat_cartActions_empty_when_not_referencing_witness :
    (chat [] (fun _ _ => .ok ("Here you go", "r1", [PyVal.dict [("id", PyVal.int 1)]]))
        (fun _ => some "NO") (fun _ => Option.none) (fun _ => Option.none)
        "g" "hi" Option.none).response.cartActions = some [] :=
  chat_cartActions_empty_when_not_referencing []
    (fun _ _ => .ok ("Here you go", "r1", [PyVal.dict [("id", PyVal.int 1)]]))
    (fun _ => some "NO") (fun _ => Option.none) (fun _ => Option.none)
    "g" "hi" Option.none "Here you go" "r1" [PyVal.dict [("id", PyVal.int 1)]]
    rfl (by decide)

/-- C9: whenever the handler takes its `except` branch, the response
carries `cartActions = None` (not an empty list) together with the
apology message and the request's session id. -/
theorem chat_error_path_null_cartActions
    (sessions : SessionMap)
    (driver : String → Option String → Except String (String × String × List PyVal))
    (classifierLLM extractLLM : String → Option String)
    (jsonParse : String → Option PyVal) (genId message : String)
    (sessionIdReq : Option String)
    (h : (chat sessions driver classifierLLM extractLLM jsonParse genId
        message sessionIdReq).errored = true) :
    (chat sessions driver classifierLLM extractLLM jsonParse genId
        message sessionIdReq).response
      = ⟨CHAT_APOLOGY, requestSessionId sessionIdReq genId, Option.none⟩ := by
  unfold chat at h ⊢
  cases hd : driver message (sessionsGet sessions (requestSessionId sessionIdReq genId)) with
  | error e => simp [hd]
  | ok t =>
      obtain ⟨reply, response_id, products⟩ := t
      simp only [hd] at h ⊢
      cases hpts : (if pyTruthy (agent_references_products classifierLLM reply)
            && products.isEmpty then
          extract_and_search_products extractLLM jsonParse
            (fun q => driver q (sessionsGet sessions (requestSessionId sessionIdReq genId))) reply
        else .ok products) with
      | error e => simp [hpts]
      | ok products_to_show =>
          simp only [hpts] at h ⊢
          cases hca : (if pyTruthy (agent_references_products classifierLLM reply)
                && !products_to_show.isEmpty then
              synthesizeCartActions products_to_show
            else .ok []) with
          | error e => simp [hca]
          | ok cart_actions =>
              simp only [hca] at h
              exact absurd h (by simp)

/-- C9 witness: a driver that raises produces the apology with a null
`cartActions`. -/
theorem chat_error_path_null_cartActions_witness :
    (chat [] (fun _ _ => .error "boom") (fun _ => Option.none) (fun _ => Option.none)
        (fun _ => Option.none) "g" "hi" Option.none).response
      = ⟨CHAT_APOLOGY, "g", Option.none⟩ :=
  chat_error_path_null_cartActions [] (fun _ _ => .error "boom") (fun _ => Option.none)
    (fun _ => Option.none) (fun _ => Option.none) "g" "hi" Option.none rfl

set_option maxRecDepth 8000 in
/-- C10, counterexample: the driver raises during Product Recovery
(its synthetic search turn), the handler returns the apology — yet the
session entry was already overwritten with the initial call's token,
so a driver exception does not leave Session State unchanged. -/
theorem chat_recovery_raise_updates_sessions :
    (chat [("s", "old")]
        (fun m _ => if m = "hello" then .ok ("reply", "new", []) else .error "boom")
        (fun _ => some "YES") (fun _ => some "[\"X\"]")
        (fun s => if s = "[\"X\"]" then some (.list [.str "X"]) else Option.none)
        "g" "hello" (some "s"))
      = ⟨⟨CHAT_APOLOGY, "s", Option.none⟩, [("s", "new")], true⟩
    ∧ ([("s", "new")] : SessionMap) ≠ [("s", "old")] := by
  refine ⟨rfl, ?_⟩
  decide

/-- C10, amended: only the handler's *initial* driver call raising
leaves the session map unchanged; a raise in a recovery-phase driver
call happens after the map was updated (see the counterexample). -/
theorem chat_initial_driver_raise_leaves_sessions
    (sessions : SessionMap)
    (driver : String → Option String → Except String (String × String × List PyVal))
    (classifierLLM extractLLM : String → Option String)
    (jsonParse : String → Option PyVal) (genId message : String)
    (sessionIdReq : Option String) (e : String)
    (h : driver message (sessionsGet sessions (requestSessionId sessionIdReq genId))
        = .error e) :
    chat sessions driver classifierLLM extractLLM jsonParse genId message sessionIdReq
      = ⟨⟨CHAT_APOLOGY, requestSessionId sessionIdReq genId, Option.none⟩, sessions, true⟩ := by
  simp [chat, h]

/-- C10 amended-claim witness: an initial driver raise leaves the
session map `[("s", "old")]` intact. -/
theorem chat_initial_driver_raise_leaves_sessions_witness :
    chat [("s", "old")] (fun _ _ => .error "boom") (fun _ => Option.none)
        (fun _ => Option.none) (fun _ => Option.none) "g" "hello" (some "s")
      = ⟨⟨CHAT_APOLOGY, "s", Option.none⟩, [("s", "old")], true⟩ :=
  chat_initial_driver_raise_leaves_sessions [("s", "old")] (fun _ _ => .error "boom")
    (fun _ => Option.none) (fun _ => Option.none) (fun _ => Option.none)
    "g" "hello" (some "s") "boom" rfl

/-- C1, counterexample: a `function_call` directive with a tool name
but no call identifier is present in the round, yet the round produces
no ToolOutput for it — the output count (0) differs from the directive
count (1). -/
theorem processRound_skips_idless_call :
    (processRound (fun _ => .ok "") (fun _ => Option.none) (fun _ => [])
        [⟨some "search_products_nl", Option.none, Option.none, PyVal.none⟩] []).1.length
      ≠ [(⟨some "search_products_nl", Option.none, Option.none,
            PyVal.none⟩ : ToolCallItem)].length := by
  decide

/-- C1, amended: in every round, the ToolOutputs sent correspond
one-to-one and in order, via their call identifiers, to the ToolCall
directives from which a truthy tool name and call identifier could be
extracted; directives without them are skipped, so the output count
equals the count of extractable directives. -/
theorem processRound_outputs_keyed_by_extractable_calls
    (search : PyVal → Except String String) (jsonParse : String → Option PyVal)
    (extractFn : String → List PyVal) (tool_calls : List ToolCallItem)
    (found : List PyVal) :
    (processRound search jsonParse extractFn tool_calls found).1.map (fun o => o.call_id)
      = (tool_calls.filterMap (extract_tool_call_info jsonParse)).map (fun i => i.2.1) := by
  induction tool_calls generalizing found with
  | nil => rfl
  | cons c rest ih =>
      cases hi : extract_tool_call_info jsonParse c with
      | none => simp [processRound, hi, List.filterMap_cons, ih found]
      | some info =>
          obtain ⟨n, cid, args⟩ := info
          cases hr : run_tool search extractFn n args with
          | ok res =>
              obtain ⟨result, products⟩ := res
              simp [processRound, hi, hr, List.filterMap_cons, ih]
          | error e =>
              simp [processRound, hi, hr, List.filterMap_cons, ih]

/-- C7: a tool-call directive naming an unknown tool (with a valid
call id) does not abort the round — it yields exactly one ToolOutput
whose content is the error string `Error: Unknown tool: <name>` — and
the loop goes on to the follow-up provider call carrying it. -/
theorem unknown_tool_yields_error_output
    (provider : String → List ToolOutput → Except String Response)
    (search : PyVal → Except String String) (jsonParse : String → Option PyVal)
    (extractFn : String → List PyVal) (found : List PyVal)
    (n cid : String) (args : PyVal) (rid : String) (fuel : Nat)
    (hn : n ≠ "") (hu : n ≠ "search_products_nl") (hc : cid ≠ "") :
    processRound search jsonParse extractFn
        [⟨some n, some cid, Option.none, args⟩] found
      = ([⟨"function_call_output", cid, "Error: Unknown tool: " ++ n⟩], found)
    ∧ (chatLoop provider search jsonParse extractFn
          ⟨rid, Option.none, [.callItem ⟨some n, some cid, Option.none, args⟩]⟩
          found (fuel + 1)).followups.head?
        = some (rid, [⟨"function_call_output", cid, "Error: Unknown tool: " ++ n⟩]) := by
  have hinfo : extract_tool_call_info jsonParse ⟨some n, some cid, Option.none, args⟩
      = some (n, cid, parse_tool_arguments jsonParse args) := by
    simp [extract_tool_call_info, pyOrOpt, hc, hn]
  have hrt : run_tool search extractFn n (parse_tool_arguments jsonParse args)
      = .error ("Unknown tool: " ++ n) := by
    simp [run_tool, hu]
  have h1 : processRound search jsonParse extractFn
        [⟨some n, some cid, Option.none, args⟩] found
      = ([⟨"function_call_output", cid, "Error: Unknown tool: " ++ n⟩], found) := by
    simp [processRound, hinfo, hrt]
    rfl
  refine ⟨h1, ?_⟩
  have htc : extract_tool_calls
      ⟨rid, Option.none, [.callItem ⟨some n, some cid, Option.none, args⟩]⟩
      = [⟨some n, some cid, Option.none, args⟩] := rfl
  simp only [chatLoop, extract_output_text, scanOutputText, truthyOptStr,
    Bool.false_eq_true, if_false, htc, List.isEmpty_cons, h1]
  cases provider rid [⟨"function_call_output", cid, "Error: Unknown tool: " ++ n⟩] with
  | ok r2 => rfl
  | error e => rfl

/-- C7 witness: the unknown tool `"frobnicate"` yields the error
ToolOutput and a follow-up call carrying it. -/
theorem unknown_tool_yields_error_output_witness :
    processRound (fun _ => .ok "") (fun _ => Option.none) (fun _ => [])
        [⟨some "frobnicate", some "call_1", Option.none, PyVal.none⟩] []
      = ([⟨"function_call_output", "call_1", "Error: Unknown tool: " ++ "frobnicate"⟩], [])
    ∧ (chatLoop (fun _ _ => .error "stop") (fun _ => .ok "") (fun _ => Option.none)
          (fun _ => [])
          ⟨"r", Option.none, [.callItem ⟨some "frobnicate", some "call_1", Option.none,
            PyVal.none⟩]⟩ [] (0 + 1)).followups.head?
        = some ("r", [⟨"function_call_output", "call_1",
            "Error: Unknown tool: " ++ "frobnicate"⟩]) :=
  unknown_tool_yields_error_output (fun _ _ => .error "stop") (fun _ => .ok "")
    (fun _ => Option.none) (fun _ => []) [] "frobnicate" "call_1" PyVal.none "r" 0
    (by decide) (by decide) (by decide)

/-- The driver loop never runs more body iterations than its fuel. -/
theorem chatLoop_iters_le (provider : String → List ToolOutput → Except String Response)
    (search : PyVal → Except String String) (jsonParse : String → Option PyVal)
    (extractFn : String → List PyVal) :
    ∀ (fuel : Nat) (response : Response) (found : List PyVal),
      (chatLoop provider search jsonParse extractFn response found fuel).iters ≤ fuel := by
  intro fuel
  induction fuel with
  | zero => intro response found; simp [chatLoop]
  | succ fuel ih =>
      intro response found
      simp only [chatLoop]
      split
      · simp
      · split
        · simp
        · split
          · exact Nat.succ_le_succ (ih _ _)
          · simp

/-- C5: whenever the initial provider call succeeds, `chat_with_agent`
returns a reply, and its loop ran at most the configured maximum of 10
iterations — for every provider behavior, including one that requests
tool calls on every response. -/
theorem chat_with_agent_loop_bounded
    (initialCall : ProviderParams → Except String Response)
    (provider : String → List ToolOutput → Except String Response)
    (search : PyVal → Except String String) (jsonParse : String → Option PyVal)
    (extractFn : String → List PyVal) (user_message : String)
    (previous_response_id : Option String) (response : Response)
    (h : initialCall (buildInitialParams user_message previous_response_id) = .ok response) :
    chat_with_agent initialCall provider search jsonParse extractFn
        user_message previous_response_id
      = .ok (chatLoop provider search jsonParse extractFn response [] 10)
    ∧ (chatLoop provider search jsonParse extractFn response [] 10).iters ≤ 10 := by
  constructor
  · simp [chat_with_agent, h]
    rfl
  · exact chatLoop_iters_le provider search jsonParse extractFn 10 response []

/-- C5 witness: a provider that always answers with a tool call makes
the loop run its full 10 iterations and still return. -/
theorem chat_with_agent_loop_bounded_witness :
    chat_with_agent
        (fun _ => .ok ⟨"r0", Option.none,
          [.callItem ⟨some "search_products_nl", some "c0", Option.none, PyVal.none⟩]⟩)
        (fun _ _ => .ok ⟨"r0", Option.none,
          [.callItem ⟨some "search_products_nl", some "c0", Option.none, PyVal.none⟩]⟩)
        (fun _ => .ok "no results") (fun _ => Option.none) (fun _ => [])
        "hi" Option.none
      = .ok (chatLoop
          (fun _ _ => .ok ⟨"r0", Option.none,
            [.callItem ⟨some "search_products_nl", some "c0", Option.none, PyVal.none⟩]⟩)
          (fun _ => .ok "no results") (fun _ => Option.none) (fun _ => [])
          ⟨"r0", Option.none,
            [.callItem ⟨some "search_products_nl", some "c0", Option.none, PyVal.none⟩]⟩
          [] 10)
    ∧ (chatLoop
          (fun _ _ => .ok ⟨"r0", Option.none,
            [.callItem ⟨some "search_products_nl", some "c0", Option.none, PyVal.none⟩]⟩)
          (fun _ => .ok "no results") (fun _ => Option.none) (fun _ => [])
          ⟨"r0", Option.none,
            [.callItem ⟨some "search_products_nl", some "c0", Option.none, PyVal.none⟩]⟩
          [] 10).iters ≤ 10 :=
  chat_with_agent_loop_bounded
    (fun _ => .ok ⟨"r0", Option.none,
      [.callItem ⟨some "search_products_nl", some "c0", Option.none, PyVal.none⟩]⟩)
    (fun _ _ => .ok ⟨"r0", Option.none,
      [.callItem ⟨some "search_products_nl", some "c0", Option.none, PyVal.none⟩]⟩)
    (fun _ => .ok "no results") (fun _ => Option.none) (fun _ => []) "hi" Option.none
    ⟨"r0", Option.none,
      [.callItem ⟨some "search_products_nl", some "c0", Option.none, PyVal.none⟩]⟩
    rfl

end Arize
